import Mathlib

/-!
Verification development for the PagerDuty Raycast extension
(`src/index.tsx`, two revisions of the same command).

The TypeScript source is shallowly embedded below:

* `IncidentItem`, `State`, `Filter` mirror the interfaces of the source.
* Network effects are made explicit: each client operation is split into
  the request(s) it issues (`HttpRequest` values) and a pure state
  transformer applied to the (externally supplied) server result.
* UI toasts are modelled as an optional message returned alongside the
  state.
-/

namespace PagerDuty

/-- Incident status, from `type IncidentStatus = "triggered" | "acknowledged" | "resolved"`. -/
inductive IncidentStatus where
  | triggered
  | acknowledged
  | resolved
deriving DecidableEq, Repr

/-- List filter, from `type Filter = "all" | IncidentStatus`. -/
inductive Filter where
  | all
  | only (s : IncidentStatus)
deriving DecidableEq, Repr

/-- An incident record, from `interface IncidentItem` in the source. -/
structure IncidentItem where
  id : String
  status : IncidentStatus
  title : String
  summary : String
  incident_number : Nat
  created_at : String
  urgency : Bool
  html_url : String
deriving DecidableEq, Repr

/-- View state, from `interface State` in the source.  Errors are carried as
their message strings. -/
structure State where
  items : Option (List IncidentItem) := none
  filter : Option Filter := none
  error : Option String := none
deriving DecidableEq, Repr

/-- An HTTP request as assembled by the source via `axios.create` plus a verb
call.  The body of the update request is kept structured. -/
structure IncidentRequestBody where
  type : String
  status : IncidentStatus
  note : Option String
deriving DecidableEq, Repr

/-- Request issued by one of the two client operations. -/
structure HttpRequest where
  method : String
  baseURL : String
  path : String
  headers : List (String × String)
  params : List (String × String)
  body : Option IncidentRequestBody
deriving DecidableEq, Repr

/-- JavaScript truthiness of the optional `note` argument
(`string | undefined`): truthy exactly when it is a non-empty string. -/
def noteTruthy : Option String → Bool
  | none => false
  | some n => n ≠ ""

/-- The request body built in `onUpdateIncidentStatus`:
`const requestBody = note ? { type, status, note } : { type, status }`. -/
def mkUpdateRequestBody (newStatus : IncidentStatus) (note : Option String) :
    IncidentRequestBody :=
  if noteTruthy note then
    { type := "incident", status := newStatus, note := note }
  else
    { type := "incident", status := newStatus, note := none }

/-- The single PUT request issued by `onUpdateIncidentStatus`:
`pd.put('/incidents/' + item.id, { incident: requestBody })` on an axios
instance created with base URL `https://api.pagerduty.com` and header
`Authorization: Token token=<apiKey>`. -/
def onUpdateRequest (apiKey : String) (item : IncidentItem)
    (newStatus : IncidentStatus) (note : Option String) : HttpRequest :=
  { method := "PUT"
  , baseURL := "https://api.pagerduty.com"
  , path := "/incidents/" ++ item.id
  , headers := [("Authorization", "Token token=" ++ apiKey)]
  , params := []
  , body := some (mkUpdateRequestBody newStatus note) }

/-- All network calls performed by one invocation of
`onUpdateIncidentStatus`: the body contains exactly one unconditional
`pd.put`, inside `try`, and the `catch` block performs no further request
(no retry). -/
def onUpdateNetworkCalls (apiKey : String) (item : IncidentItem)
    (newStatus : IncidentStatus) (note : Option String) : List HttpRequest :=
  [onUpdateRequest apiKey item newStatus note]

/-- The GET request issued by `fetchIncidents`: axios instance with base URL
`https://api.pagerduty.com`, header `Authorization: Token token=<apiKey>`,
query params `sort_by=created_at:desc`, then `pd.get('/incidents')`. -/
def fetchRequest (apiKey : String) : HttpRequest :=
  { method := "GET"
  , baseURL := "https://api.pagerduty.com"
  , path := "/incidents"
  , headers := [("Authorization", "Token token=" ++ apiKey)]
  , params := [("sort_by", "created_at:desc")]
  , body := none }

/-- All network calls performed by one invocation of `fetchIncidents`: the
`try` block performs exactly one unconditional `pd.get`; there is no local
check of the credential before it. -/
def fetchNetworkCalls (apiKey : String) : List HttpRequest :=
  [fetchRequest apiKey]

/-- The state produced by `fetchIncidents` from the server outcome:
`setState({ items: response.incidents })` on success, and
`setState({ error })` in the catch block, where the stored error carries the
underlying message. -/
def fetchIncidentsRun (serverResult : Except String (List IncidentItem)) :
    State :=
  match serverResult with
  | .ok incidents => { items := some incidents, filter := none, error := none }
  | .error msg => { items := none, filter := none, error := some msg }

/-- The merge step `updateIncident(id, newStatus)` of the `Command`
component.  Returns the new state together with the failure-toast message,
if any:

```
const items = state.items ?? [];
const index = items.findIndex((i) => i.id === id);
if (index < 0) { showToast(Failure, "Failed to update incident status."); return; }
items[index].status = newStatus;
setState({ items: items });
```
-/
def updateIncident (st : State) (id : String) (newStatus : IncidentStatus) :
    State × Option String :=
  let items := st.items.getD []
  match items.findIdx? (fun i => i.id = id) with
  | none => (st, some "Failed to update incident status.")
  | some index =>
    (({ items :=
          some (List.modify (fun it => { it with status := newStatus }) index items) } : State),
     none)

/-- The local effect of one invocation of `onUpdateIncidentStatus`, given the
server outcome of the PUT: on success `props.onUpdate(item.id,
response.incident.status)` runs the merge step; on failure only a toast is
shown and the state is left untouched. -/
def onUpdateIncidentStatusRun (st : State) (item : IncidentItem)
    (serverResult : Except String IncidentItem) : State × Option String :=
  match serverResult with
  | .ok incident => updateIncident st item.id incident.status
  | .error msg => (st, some msg)

/-- The update targets for which `UpdateIncidentStatusAction` renders an
action, combined with the guard in `Command` that renders nothing for a
resolved incident:

* `resolved` → no action (`<></>`),
* `acknowledged` → a push to the resolve form,
* otherwise (`triggered`) → an acknowledge action and a push to the resolve
  form. -/
def availableTargets : IncidentStatus → List IncidentStatus
  | .resolved => []
  | .acknowledged => [.resolved]
  | .triggered => [.acknowledged, .resolved]

/-- The transition table of spec §4.2, written from the spec's words for
comparison with `availableTargets`: `triggered → acknowledged`,
`triggered → resolved`, `acknowledged → resolved`, and `resolved` terminal. -/
def specAllowedTransition : IncidentStatus → IncidentStatus → Bool
  | .triggered, .acknowledged => true
  | .triggered, .resolved => true
  | .acknowledged, .resolved => true
  | _, _ => false

/-- Value of a decimal digit character, `none` for any other character. -/
def digitVal (c : Char) : Option Nat :=
  if c.isDigit then some (c.toNat - 48) else none

/-- Two decimal digits as a number. -/
def num2 (a b : Char) : Option Nat :=
  (digitVal a).bind fun x => (digitVal b).map fun y => x * 10 + y

/-- Four decimal digits as a number. -/
def num4 (a b c d : Char) : Option Nat :=
  (num2 a b).bind fun x => (num2 c d).map fun y => x * 100 + y

/-- Days since 1970-01-01 of a proleptic-Gregorian civil date
(integer year, month `1..12`, day `1..31`). -/
def daysFromCivil (y0 : Int) (m d : Nat) : Int :=
  let y := if m ≤ 2 then y0 - 1 else y0
  let era := (if 0 ≤ y then y else y - 399) / 400
  let yoe := (y - era * 400).toNat
  let mp := (m + 9) % 12
  let doy := (153 * mp + 2) / 5 + d - 1
  let doe := yoe * 365 + yoe / 4 - yoe / 100 + doy
  era * 146097 + (doe : Int) - 719468

/-- Civil date (year, month, day) of a count of days since 1970-01-01. -/
def civilFromDays (z0 : Int) : Int × Nat × Nat :=
  let z := z0 + 719468
  let era := (if 0 ≤ z then z else z - 146096) / 146097
  let doe := (z - era * 146097).toNat
  let yoe := (doe - doe / 1460 + doe / 36524 - doe / 146096) / 365
  let doy := doe - (365 * yoe + yoe / 4 - yoe / 100)
  let mp := (5 * doy + 2) / 153
  let d := doy - (153 * mp + 2) / 5 + 1
  let m := if mp < 10 then mp + 3 else mp - 9
  (if m ≤ 2 then (yoe : Int) + era * 400 + 1 else (yoe : Int) + era * 400, m, d)

/-- Trailing time-zone designator of an ISO-8601 timestamp, as an offset in
seconds: `Z` or an explicit `±hh:mm` offset (an absent designator is read as
UTC in this model). -/
def parseOffsetSeconds : List Char → Option Int
  | [] => some 0
  | ['Z'] => some 0
  | ['+', h1, h2, ':', m1, m2] =>
    (num2 h1 h2).bind fun h => (num2 m1 m2).map fun m => ((h * 60 + m) * 60 : Int)
  | ['-', h1, h2, ':', m1, m2] =>
    (num2 h1 h2).bind fun h => (num2 m1 m2).map fun m => -(((h * 60 + m) * 60 : Int))
  | _ => none

/-- Model of the `date-fns` function `parseISO` on complete date-time
strings `yyyy-MM-ddTHH:mm:ss` with a `Z`/`±hh:mm` designator: the instant
as seconds since the Unix epoch, `none` for other shapes (where the library
yields an invalid date). -/
def parseISO (s : String) : Option Int :=
  match s.toList with
  | y1 :: y2 :: y3 :: y4 :: '-' :: mo1 :: mo2 :: '-' :: d1 :: d2 :: 'T' ::
      h1 :: h2 :: ':' :: mi1 :: mi2 :: ':' :: s1 :: s2 :: rest =>
    (num4 y1 y2 y3 y4).bind fun y =>
    (num2 mo1 mo2).bind fun mo =>
    (num2 d1 d2).bind fun d =>
    (num2 h1 h2).bind fun h =>
    (num2 mi1 mi2).bind fun mi =>
    (num2 s1 s2).bind fun se =>
    (parseOffsetSeconds rest).map fun off =>
      daysFromCivil (y : Int) mo d * 86400 + ((h * 3600 + mi * 60 + se : Nat) : Int) - off
  | _ => none

/-- Fixed offset of a named time zone, in seconds.  Only `Asia/Tokyo`
(UTC+9, no daylight saving) is used by the source. -/
def zoneOffsetSeconds (timeZone : String) : Int :=
  if timeZone = "Asia/Tokyo" then 9 * 3600 else 0

/-- Model of `convertToTimeZone` from `date-fns-timezone`: shifts the
instant by the zone offset, so that reading the result as UTC shows the
zone's wall-clock time. -/
def convertToTimeZone (t : Int) (timeZone : String) : Int :=
  t + zoneOffsetSeconds timeZone

/-- A natural number printed as two digits, zero-padded. -/
def pad2 (n : Nat) : String :=
  if n < 10 then "0" ++ toString n else toString n

/-- An instant (seconds since epoch, read as UTC) printed with the
`date-fns` pattern `yyyy/MM/dd hh:mm:ss`; `hh` is the zero-padded 12-hour
clock hour (`01`–`12`). -/
def formatYMDHMS (t : Int) : String :=
  let days := t.fdiv 86400
  let secsOfDay := (t - days * 86400).toNat
  let c := civilFromDays days
  let hour := secsOfDay / 3600
  let minute := secsOfDay % 3600 / 60
  let second := secsOfDay % 60
  let hour12 := if hour % 12 = 0 then 12 else hour % 12
  toString c.1 ++ "/" ++ pad2 c.2.1 ++ "/" ++ pad2 c.2.2 ++ " " ++
    pad2 hour12 ++ ":" ++ pad2 minute ++ ":" ++ pad2 second

/-- Model of the `date-fns` function `format`, for the single pattern the
source uses. -/
def format (t : Int) (pattern : String) : String :=
  if pattern = "yyyy/MM/dd hh:mm:ss" then formatYMDHMS t else ""

/-- The accessory text of one rendered incident row:
`format(convertToTimeZone(parseISO(alert.created_at), { timeZone: 'Asia/Tokyo' }), 'yyyy/MM/dd hh:mm:ss')`.
`none` models the library throwing on an invalid parsed date. -/
def incidentAccessoryText (alert : IncidentItem) : Option String :=
  (parseISO alert.created_at).map fun t =>
    format (convertToTimeZone t "Asia/Tokyo") "yyyy/MM/dd hh:mm:ss"

/-- `filterIncidents` of the `Command` component:
returns `state.items` when the filter is unset or `all`, otherwise the
items whose status equals the filter. -/
def filterIncidents (st : State) : Option (List IncidentItem) :=
  match st.filter with
  | none => st.items
  | some .all => st.items
  | some (.only s) => st.items.map (List.filter (fun item => item.status = s))

/-- The accessory texts of all rendered rows:
`filterIncidents()?.map(alert => <List.Item accessories=[...] />)`. -/
def renderedAccessoryTexts (st : State) : Option (List (Option String)) :=
  (filterIncidents st).map (List.map incidentAccessoryText)

/-- A concrete incident record used in witnesses and counterexamples. -/
def sampleIncident (id : String) (status : IncidentStatus) : IncidentItem :=
  { id := id
  , status := status
  , title := "Server down"
  , summary := "A server is down"
  , incident_number := 1
  , created_at := "2023-06-30T15:30:05Z"
  , urgency := true
  , html_url := "https://example.pagerduty.com/incidents/A" }

/-- `findIdx?` on a list whose prefix has no match and whose next element
matches returns the length of the prefix. -/
theorem findIdx?_prefix_match {α : Type _} (p : α → Bool) (pre : List α)
    (x : α) (post : List α) (hpre : ∀ a ∈ pre, p a = false) (hx : p x = true) :
    List.findIdx? p (pre ++ x :: post) = some pre.length := by
  rw [List.findIdx?_append, List.findIdx?_eq_none_iff.mpr hpre, List.findIdx?_cons]
  simp [hx]

/-- `modify` at the index right after a prefix rewrites exactly the element
there. -/
theorem modify_append_cons {α : Type _} (f : α → α) (pre : List α) (x : α)
    (post : List α) :
    List.modify f pre.length (pre ++ x :: post) = pre ++ f x :: post := by
  induction pre with
  | nil => simp [List.modify]
  | cons a as ih =>
    simp only [List.length_cons, List.cons_append]
    rw [show List.modify f (as.length + 1) (a :: (as ++ x :: post)) =
          a :: List.modify f as.length (as ++ x :: post) by simp [List.modify]]
    rw [ih]

/-- Claim C1 (amended): the source renders update actions for exactly the
transitions of the table in §4.2 — `triggered → acknowledged`,
`triggered → resolved`, `acknowledged → resolved`, nothing from
`resolved` — so an invalid transition cannot be initiated from the UI; but
no `InvalidTransitionError` exists and no local transition check is
performed: whenever the updater is invoked, it issues its single network
request regardless of the current and target statuses. -/
theorem rendered_targets_match_table_and_no_local_check :
    (∀ s t : IncidentStatus,
      t ∈ availableTargets s ↔ specAllowedTransition s t = true) ∧
    (∀ (key : String) (item : IncidentItem) (ns : IncidentStatus)
       (note : Option String),
      onUpdateNetworkCalls key item ns note = [onUpdateRequest key item ns note]) := by
  refine ⟨fun s t => ?_, fun key item ns note => rfl⟩
  cases s <;> cases t <;> simp [availableTargets, specAllowedTransition]

/-- Claim C1, counterexample to the claim as stated: for a concrete resolved
incident, invoking the status updater with target `acknowledged` performs a
network call — it does not fail with `InvalidTransitionError` before any
network call (the source defines no such error and performs no local
transition check). -/
theorem updateOnResolved_issues_network_call :
    (onUpdateNetworkCalls "key" (sampleIncident "A" .resolved) .acknowledged none).length
      = 1 := rfl

/-- Claim C2: after a successful status update, the merge step replaces the
single record whose id matches the updated incident's id, leaving every
other record in place; if no record matches, it reports the reconciliation
failure and leaves the collection (and the whole state) unchanged. -/
theorem updateIncident_merges_by_id
    (pre post : List IncidentItem) (x : IncidentItem) (f : Option Filter)
    (e : Option String) (ns : IncidentStatus)
    (hpre : ∀ i ∈ pre, i.id ≠ x.id) :
    (updateIncident ⟨some (pre ++ x :: post), f, e⟩ x.id ns =
      (⟨some (pre ++ { x with status := ns } :: post), none, none⟩, none)) ∧
    (∀ l : List IncidentItem, (∀ i ∈ l, i.id ≠ x.id) →
      updateIncident ⟨some l, f, e⟩ x.id ns =
        (⟨some l, f, e⟩, some "Failed to update incident status.")) := by
  constructor
  · have hfind : List.findIdx? (fun i => decide (i.id = x.id)) (pre ++ x :: post)
        = some pre.length :=
      findIdx?_prefix_match _ pre x post (fun a ha => by simp [hpre a ha]) (by simp)
    simp only [updateIncident, Option.getD_some]
    rw [hfind]
    dsimp only
    rw [modify_append_cons]
  · intro l hl
    have hfind : List.findIdx? (fun i => decide (i.id = x.id)) l = none :=
      List.findIdx?_eq_none_iff.mpr (fun a ha => by simp [hl a ha])
    simp only [updateIncident, Option.getD_some]
    rw [hfind]

/-- Claim C2, witness: fetching `[{id := "A", status := triggered}]` and
updating `"A"` to `acknowledged` yields `[{id := "A", status := acknowledged}]`. -/
theorem updateIncident_merges_by_id_witness :
    (∀ i ∈ ([] : List IncidentItem), i.id ≠ (sampleIncident "A" .triggered).id) ∧
    ((updateIncident ⟨some ([] ++ sampleIncident "A" .triggered :: []), none, none⟩
        (sampleIncident "A" .triggered).id .acknowledged =
      (⟨some ([] ++ { sampleIncident "A" .triggered with status := .acknowledged } :: []),
        none, none⟩, none)) ∧
    (∀ l : List IncidentItem, (∀ i ∈ l, i.id ≠ (sampleIncident "A" .triggered).id) →
      updateIncident ⟨some l, none, none⟩ (sampleIncident "A" .triggered).id .acknowledged =
        (⟨some l, none, none⟩, some "Failed to update incident status."))) :=
  ⟨by simp, updateIncident_merges_by_id [] [] (sampleIncident "A" .triggered)
    none none .acknowledged (by simp)⟩

/-- Claim C3 (amended): `fetchIncidents` performs its single network call
for every credential, including the empty one, sending
`Authorization: Token token=<apiKey>`; there is no local credential check
and no `AuthError` — any authentication failure arrives as a server error
stored in the error state. -/
theorem fetchIncidents_always_calls_network :
    ∀ apiKey : String,
      fetchNetworkCalls apiKey = [fetchRequest apiKey] ∧
      (fetchRequest apiKey).headers = [("Authorization", "Token token=" ++ apiKey)] ∧
      (∀ msg : String, (fetchIncidentsRun (.error msg)).error = some msg) :=
  fun _ => ⟨rfl, rfl, fun _ => rfl⟩

/-- Claim C3, counterexample to the claim as stated: for the empty
credential `""`, `fetchIncidents` performs a network call (with an empty
token in the authorization header) instead of failing with `AuthError`
before any network call. -/
theorem fetch_empty_credential_issues_network_call :
    (fetchNetworkCalls "").length = 1 ∧
    (fetchRequest "").headers = [("Authorization", "Token token=")] := by
  exact ⟨rfl, by decide⟩

/-- Claim C4: a failed status-update request leaves the local state (and in
particular the in-memory incident collection) exactly as it was, and the
updater issues exactly one request per invocation — no retry. -/
theorem onUpdate_failure_leaves_state :
    ∀ (st : State) (item : IncidentItem) (msg : String) (key : String)
      (ns : IncidentStatus) (note : Option String),
      (onUpdateIncidentStatusRun st item (.error msg)).1 = st ∧
      (onUpdateNetworkCalls key item ns note).length = 1 :=
  fun _ _ _ _ _ _ => ⟨rfl, rfl⟩

/-- Claim C5: for every credential and non-empty incident set, the list
fetch carries the query parameter `sort_by=created_at:desc` and the
resulting state holds exactly the server-returned list — same elements,
same order, unmodified. -/
theorem fetchIncidents_order_preserved
    (apiKey : String) (incidents : List IncidentItem)
    (_hne : incidents ≠ []) :
    (fetchRequest apiKey).params = [("sort_by", "created_at:desc")] ∧
    (fetchIncidentsRun (.ok incidents)).items = some incidents :=
  ⟨rfl, rfl⟩

/-- Claim C5, witness: a concrete one-element server response is stored
verbatim, and the request carries the sort parameter. -/
theorem fetchIncidents_order_preserved_witness :
    ([sampleIncident "A" .triggered] ≠ ([] : List IncidentItem)) ∧
    ((fetchRequest "key").params = [("sort_by", "created_at:desc")] ∧
     (fetchIncidentsRun (.ok [sampleIncident "A" .triggered])).items
       = some [sampleIncident "A" .triggered]) :=
  ⟨by simp, fetchIncidents_order_preserved "key" [sampleIncident "A" .triggered] (by simp)⟩

/-- Claim C6: a failed list fetch produces the explicit error state carrying
the underlying message with no incident list set, which is distinguishable
from a successful fetch of an empty list. -/
theorem fetch_failure_yields_error_state :
    ∀ msg : String,
      fetchIncidentsRun (.error msg)
        = { items := none, filter := none, error := some msg } ∧
      (fetchIncidentsRun (.error msg)).items = none ∧
      fetchIncidentsRun (.error msg) ≠ fetchIncidentsRun (.ok []) := by
  intro msg
  refine ⟨rfl, rfl, ?_⟩
  simp [fetchIncidentsRun, State.mk.injEq]

/-- Claim C7: each update invocation issues exactly one PUT request to
`/incidents/{id}` whose body is `{ incident: { type: "incident", status,
note? } }` with the note present only when supplied, and whose
authorization header is `Token token=<apiKey>`. -/
theorem onUpdateRequest_shape :
    ∀ (key : String) (item : IncidentItem) (ns : IncidentStatus)
      (note : Option String),
      onUpdateNetworkCalls key item ns note = [onUpdateRequest key item ns note] ∧
      (onUpdateRequest key item ns note).method = "PUT" ∧
      (onUpdateRequest key item ns note).path = "/incidents/" ++ item.id ∧
      (onUpdateRequest key item ns note).headers
        = [("Authorization", "Token token=" ++ key)] ∧
      (onUpdateRequest key item ns note).body = some (mkUpdateRequestBody ns note) ∧
      (mkUpdateRequestBody ns note).type = "incident" ∧
      (mkUpdateRequestBody ns note).status = ns ∧
      (∀ n : String, (mkUpdateRequestBody ns note).note = some n → note = some n) := by
  intro key item ns note
  refine ⟨rfl, rfl, rfl, rfl, rfl, ?_, ?_, ?_⟩ <;>
    cases note with
    | none => simp [mkUpdateRequestBody, noteTruthy]
    | some n =>
      by_cases h : n = "" <;> simp [mkUpdateRequestBody, noteTruthy, h]

/-- Claim C8: every displayed incident timestamp is the incident's
`created_at` value parsed as ISO-8601, converted to the `Asia/Tokyo` time
zone and formatted with the pattern `yyyy/MM/dd hh:mm:ss`; concretely,
`2023-06-30T15:30:05Z` renders as `2023/07/01 12:30:05`. -/
theorem rendered_timestamps_tokyo :
    (∀ st : State,
      renderedAccessoryTexts st =
        (filterIncidents st).map (List.map fun alert =>
          (parseISO alert.created_at).map fun t =>
            format (convertToTimeZone t "Asia/Tokyo") "yyyy/MM/dd hh:mm:ss")) ∧
    incidentAccessoryText (sampleIncident "A" .triggered)
      = some "2023/07/01 12:30:05" := by
  refine ⟨fun st => rfl, ?_⟩
  decide

/-- Claim C9: the update request body contains a note field exactly when the
supplied note is a non-empty string; a supplied empty-string note produces
the same body as an absent note. -/
theorem requestBody_note_iff_nonempty :
    (∀ (ns : IncidentStatus) (note : Option String) (n : String),
      (mkUpdateRequestBody ns note).note = some n ↔ (note = some n ∧ n ≠ "")) ∧
    (∀ ns : IncidentStatus, mkUpdateRequestBody ns (some "") = mkUpdateRequestBody ns none) := by
  constructor
  · intro ns note n
    cases note with
    | none => simp [mkUpdateRequestBody, noteTruthy]
    | some m =>
      by_cases h : m = "" <;> simp [mkUpdateRequestBody, noteTruthy, h]
      · exact fun hh => hh.symm
      · exact fun hh => hh ▸ h
  · intro ns
    simp [mkUpdateRequestBody, noteTruthy]

/-- Claim C10: when the merge step succeeds, the state is replaced by an
object containing only the items field, so the active filter and any stored
error are reset to `undefined` regardless of their previous values. -/
theorem updateIncident_resets_filter_and_error
    (l : List IncidentItem) (f : Option Filter) (e : Option String)
    (id : String) (ns : IncidentStatus) (j : Nat)
    (hfind : List.findIdx? (fun i => i.id = id) l = some j) :
    (updateIncident ⟨some l, f, e⟩ id ns).1.filter = none ∧
    (updateIncident ⟨some l, f, e⟩ id ns).1.error = none := by
  simp only [updateIncident, Option.getD_some]
  rw [hfind]
  exact ⟨rfl, rfl⟩

/-- Claim C10, witness: a successful merge at a concrete state with an
active filter and a stored error resets both to `none`. -/
theorem updateIncident_resets_filter_and_error_witness :
    (List.findIdx? (fun i => i.id = "A") [sampleIncident "A" .triggered] = some 0) ∧
    ((updateIncident ⟨some [sampleIncident "A" .triggered], some .all, some "boom"⟩
        "A" .acknowledged).1.filter = none ∧
     (updateIncident ⟨some [sampleIncident "A" .triggered], some .all, some "boom"⟩
        "A" .acknowledged).1.error = none) :=
  ⟨by decide, updateIncident_resets_filter_and_error
    [sampleIncident "A" .triggered] (some .all) (some "boom") "A" .acknowledged 0 (by decide)⟩

end PagerDuty
